import Mathlib

/-!
# Verification of the `bite` Rust-symbol demangler (`src/demangler.rs`)

A shallow embedding of the demangler's data model, grammar engine and
renderer, translated branch-for-branch from `src/src/demangler.rs`.

Modelling conventions:
* Bytes are `Nat` values (`'C'` is 67, and so on); machine integers
  (`usize`) are `Nat` with explicit `USIZE_MAX` bounds at every
  `checked_mul`/`checked_add` of the source.
* A Rust panic (out-of-bounds index or slice, a reachable
  `todo!` or `unreachable!`) is the explicit `Outcome.panicked` /
  `FmtOut.panicked` value; it is never conflated with the demangler's
  ordinary `Error` results.
* The recursive grammar engine is fuel-indexed: `engine fuel` is a record
  of all mutually recursive productions, defined by a single structural
  recursion on the fuel so that everything reduces inside the kernel.
  Fuel exhaustion is the distinguished value `Outcome.outOfFuel`, distinct
  from every behaviour of the source; the entry point uses an ample fixed
  fuel (each production entry bumps the `depth` counter that the source
  caps at `MAX_DEPTH = 100`, and each loop iteration of the source either
  terminates or invokes a production).
* The byte cursor `crate::decode::Reader` is not part of the demangler
  source file. Modelled from the spec: section 4.1 specifies
  consume-next-byte (none at the end), conditional consume-if-equal
  ("take"), signed relative offset adjustment, and get/set of the
  absolute position.
-/

namespace Demangler

/-- `usize::MAX` on the (64-bit) target. -/
def USIZE_MAX : Nat := 2 ^ 64 - 1

/-- `MAX_COMPLEXITY` of the source (line 23): the fixed arena capacity. -/
def MAX_COMPLEXITY : Nat := 256

/-- `MAX_DEPTH` of the source (line 24): the recursion-depth ceiling. -/
def MAX_DEPTH : Nat := 100

/-- `enum Error` of the source (lines 6-17). `prefixUnknown` is the
source's first variant (its Rust name names an unrecognised mangling
scheme marker at the front of the symbol). -/
inductive Error
  | prefixUnknown
  | tooComplex
  | pathLengthNotNumber
  | constDelimiterNotFound
  | backrefIsFrontref
  | decodingBase62Num
  | symbolTooSmall
  | notAscii
  | invalid
  deriving DecidableEq

/-- `enum Namespace` (lines 735-741). `TypeNs` is the source's `Type`
variant. -/
inductive Namespace
  | Unknown
  | Value
  | TypeNs
  | Closure
  deriving DecidableEq

/-- `struct Const` (lines 743-749): negation flag, arena index of the
type, and the raw value text as a half-open byte range of the source
buffer. -/
structure Const where
  neg : Bool
  ty : Nat
  data : Nat × Nat
  deriving DecidableEq

/-- `enum Generic` (lines 707-712). The source wraps the lifetime id in
the newtype `Lifetime(usize)`; we inline it as `Nat`. `TyIdx` is the
source's `Type(usize)` variant, `ConstG` its `Const(Const)` variant. -/
inductive Generic
  | Lifetime (l : Nat)
  | TyIdx (i : Nat)
  | ConstG (c : Const)
  deriving DecidableEq

/-- `enum Path` (lines 754-780). All children are arena indices. -/
inductive Path
  | Crate (dis : Option Nat) (ident : String)
  | InherentImpl (ty : Nat)
  | Trait (ty : Nat) (path : Nat)
  | Nested (ns : Namespace) (path : Nat) (dis : Option Nat) (ident : String)
  | Generic (base : Nat) (args : List Generic)
  deriving DecidableEq

/-- `enum Type` (lines 782-844); named `Ty` because `Type` is a Lean
universe keyword. The `isUns` field of `FnSig` is the source's
`is_unsafe` flag. The binder fields stay `Option Nat` as in the source;
a present binder is unreachable because parsing it hits a `todo!`. -/
inductive Ty
  | Empty
  | Basic (s : String)
  | Path (p : Path)
  | Array (ty : Nat) (c : Const)
  | Slice (ty : Nat)
  | Tuple (tys : List Nat)
  | Ref (lt : Option Nat) (ty : Nat)
  | RefMut (lt : Option Nat) (ty : Nat)
  | Pointer (ty : Nat)
  | PointerMut (ty : Nat)
  | FnSig (binder : Option Nat) (isUns : Bool) (ident : Option String)
      (args : List Nat) (ret : Option Nat)
  | DynTrait (binder : Option Nat)
      (traits : List (Nat × List (String × Nat))) (lt : Nat)
  deriving DecidableEq

/-- The whole in-flight parser state: the cursor (`buf`, `pos`), the
arena (`stack`, `ptr` — `struct Stack`, lines 680-699) and the `depth`
counter of `struct Symbol`. -/
structure PState where
  buf : List Nat
  pos : Nat
  stack : List Ty
  ptr : Nat
  depth : Nat
  deriving DecidableEq

/-- Result of running a grammar production: success with a value and the
updated state, one of the source's `Error`s, a modelled Rust panic, or
fuel exhaustion (an artefact of the embedding only). -/
inductive Outcome (α : Type)
  | ok (a : α) (s : PState)
  | err (e : Error)
  | panicked
  | outOfFuel
  deriving DecidableEq

/-- Sequencing of outcomes, threading the parser state (the source's `?`
operator plus ordinary control flow). -/
def Outcome.bind {α β : Type} : Outcome α → (α → PState → Outcome β) → Outcome β
  | .ok a s, f => f a s
  | .err e, _ => .err e
  | .panicked, _ => .panicked
  | .outOfFuel, _ => .outOfFuel

/-- Modelled from the spec: `Reader::consume` — next byte, or none at the
end of the buffer (position unchanged in that case). -/
def rdConsume (s : PState) : Option (Nat × PState) :=
  match s.buf.get? s.pos with
  | some b => some (b, { s with pos := s.pos + 1 })
  | none => none

/-- Modelled from the spec: `Reader::take` — consume the next byte only
if it equals the argument, reporting whether it did. -/
def rdTake (s : PState) (b : Nat) : Bool × PState :=
  if s.buf.get? s.pos = some b then (true, { s with pos := s.pos + 1 })
  else (false, s)

/-- Modelled from the spec: `Reader::offset` — signed relative adjustment
of the absolute position. -/
def rdOffset (s : PState) (n : Int) : PState :=
  { s with pos := (Int.ofNat s.pos + n).toNat }

/-- Modelled from the spec: `Reader::inner` — the not-yet-consumed tail
of the buffer. -/
def rdInner (s : PState) : List Nat := s.buf.drop s.pos

/-- `Symbol::take_spot` (lines 304-308): hand out the next arena index.
Note that the source performs no capacity check here. -/
def take_spot (s : PState) : Nat × PState :=
  (s.ptr, { s with ptr := s.ptr + 1 })

/-- Writing `self.ast.stack[spot] = t`. The source's arena is a fixed
array `[Type; MAX_COMPLEXITY]`, so an index `≥ MAX_COMPLEXITY` is a Rust
panic. -/
def setSpot (s : PState) (spot : Nat) (t : Ty) : Outcome Unit :=
  if spot < MAX_COMPLEXITY then .ok () { s with stack := s.stack.set spot t }
  else .panicked

/-- The base-62 digit value of a byte: `0-9`, `a-z` (+10), `A-Z` (+36)
(lines 326-331). -/
def b62Digit (c : Nat) : Option Nat :=
  if 48 ≤ c ∧ c ≤ 57 then some (c - 48)
  else if 97 ≤ c ∧ c ≤ 122 then some (c - 97 + 10)
  else if 65 ≤ c ∧ c ≤ 90 then some (c - 65 + 36)
  else none

/-- `usize::checked_add`. -/
def checkedAdd (a b : Nat) : Option Nat :=
  if a + b ≤ USIZE_MAX then some (a + b) else none

/-- `usize::checked_mul`. -/
def checkedMul (a b : Nat) : Option Nat :=
  if a * b ≤ USIZE_MAX then some (a * b) else none

/-- The `while let Some(chr) = self.source.consume()` loop of
`consume_base62` (lines 321-337), over the remaining bytes. Returns the
resulting number and how many bytes were consumed. Running off the end
of the input is `DecodingBase62Num` (line 337). -/
def base62Loop : List Nat → Nat → Except Error (Nat × Nat)
  | [], _ => .error .decodingBase62Num
  | c :: rest, num =>
    if c = 95 then
      match checkedAdd num 1 with
      | some v => .ok (v, 1)
      | none => .error .decodingBase62Num
    else
      match b62Digit c with
      | none => .error .decodingBase62Num
      | some d =>
        match checkedMul num 62 with
        | none => .error .decodingBase62Num
        | some m =>
          match checkedAdd m d with
          | none => .error .decodingBase62Num
          | some num2 =>
            match base62Loop rest num2 with
            | .ok (v, k) => .ok (v, k + 1)
            | .error e => .error e

/-- `Symbol::consume_base62` (lines 314-338): a leading underscore alone
is zero; otherwise accumulate digits until the terminating underscore,
which adds one (`num.checked_add(1)`, line 323). -/
def consume_base62 (s : PState) : Outcome Nat :=
  let t := rdTake s 95
  if t.1 then Outcome.ok 0 t.2
  else
    match base62Loop (rdInner s) 0 with
    | .ok (v, k) => Outcome.ok v { s with pos := s.pos + k }
    | .error e => Outcome.err e

/-- `Symbol::consume_lifetime` (lines 310-312). -/
def consume_lifetime (s : PState) : Outcome Nat := consume_base62 s

/-- `Symbol::try_consume_disambiguator` (lines 340-346): an optional
tag byte `s` followed by a base-62 number. -/
def try_consume_disambiguator (s : PState) : Outcome (Option Nat) :=
  let t := rdTake s 115
  if t.1 then (consume_base62 t.2).bind fun v s2 => Outcome.ok (some v) s2
  else Outcome.ok none s

/-- Is the byte an ASCII decimal digit? -/
def isDigitByte (c : Nat) : Bool := decide (48 ≤ c) && decide (c ≤ 57)

/-- Decimal value of a digit-byte list (what `usize::from_str_radix(_, 10)`
computes on an all-digit slice). -/
def digitsVal : List Nat → Nat → Nat
  | [], acc => acc
  | c :: r, acc => digitsVal r (acc * 10 + (c - 48))

/-- ASCII bytes to a Lean string. -/
def listToString (l : List Nat) : String := String.mk (l.map Char.ofNat)

/-- UTF-8 bytes of a string (identical to the code points for the ASCII
inputs this development evaluates). -/
def strBytes (s : String) : List Nat := s.data.map Char.toNat

/-- `Symbol::consume_ident` (lines 348-364): read a run of decimal
digits as a length, then take exactly that many bytes as the name.
If every remaining byte is a digit the source's loop falls through to
`Ok("")` without consuming anything. A zero-width digit run
(`from_str_radix("")`) or an overflowing length is
`PathLengthNotNumber`. The source then evaluates `&s[width..][..len]`,
which is a Rust panic whenever `len` exceeds the remaining bytes. -/
def consume_ident (s : PState) : Outcome String :=
  let inner := rdInner s
  match inner.findIdx? (fun c => !isDigitByte c) with
  | none => Outcome.ok "" s
  | some width =>
    if width = 0 then Outcome.err .pathLengthNotNumber
    else
      let len := digitsVal (inner.take width) 0
      if USIZE_MAX < len then Outcome.err .pathLengthNotNumber
      else if inner.length - width < len then Outcome.panicked
      else
        Outcome.ok (listToString ((inner.drop width).take len))
          { s with pos := s.pos + (width + len) }

/-- `fn basic_types` (lines 846-872): the fixed table of single-byte
primitive type codes. -/
def basic_types (tag : Nat) : Option String :=
  if tag = 98 then some "bool"
  else if tag = 99 then some "char"
  else if tag = 101 then some "str"
  else if tag = 117 then some "()"
  else if tag = 97 then some "i8"
  else if tag = 115 then some "i16"
  else if tag = 108 then some "i32"
  else if tag = 120 then some "i64"
  else if tag = 110 then some "i128"
  else if tag = 105 then some "isize"
  else if tag = 104 then some "u8"
  else if tag = 116 then some "u16"
  else if tag = 109 then some "u32"
  else if tag = 121 then some "u64"
  else if tag = 111 then some "u128"
  else if tag = 106 then some "usize"
  else if tag = 102 then some "f32"
  else if tag = 100 then some "f64"
  else if tag = 122 then some "!"
  else if tag = 112 then some "_"
  else if tag = 118 then some "..."
  else none

/-- All mutually recursive grammar productions at one fuel level:
`path`/`ty` are `consume_path`/`consume_type`; `konst` is
`consume_const`; `types` is `consume_types`' accumulation loop; `gens`
is the generic-argument loop of the `I` production; `dyns` and
`dynBinds` are the two loops of the `D` production. -/
structure Engine where
  path : PState → Outcome Unit
  ty : PState → Outcome Unit
  konst : PState → Outcome Const
  types : PState → List Nat → Outcome (List Nat)
  gens : PState → List Generic → Outcome (List Generic)
  dyns : PState → List (Nat × List (String × Nat)) →
    Outcome (List (Nat × List (String × Nat)))
  dynBinds : PState → List (String × Nat) → Outcome (List (String × Nat))

/-- The exhausted engine: every production reports fuel exhaustion. -/
def engineZero : Engine where
  path := fun _ => .outOfFuel
  ty := fun _ => .outOfFuel
  konst := fun _ => .outOfFuel
  types := fun _ _ => .outOfFuel
  gens := fun _ _ => .outOfFuel
  dyns := fun _ _ => .outOfFuel
  dynBinds := fun _ _ => .outOfFuel

/-- One fuel level of every production, each translated branch-for-branch
from the source; recursive calls go through `prev`.

* `path` is `Symbol::consume_path` (lines 398-508). Tag bytes: `C` 67,
  `M` 77, `X` 88, `Y` 89, `N` 78 (namespaces `v` 118, `t` 116, `C` 67),
  `I` 73, `B` 66, `E` 69. The final arm models the release
  (`not(debug_assertions)`) build, `Err(Error::Invalid)`; debug builds
  panic there instead.
* `ty` is `Symbol::consume_type` (lines 520-676). Tag bytes: `A` 65,
  `S` 83, `T` 84, `R` 82, `Q` 81, `P` 80, `O` 79, `F` 70, `D` 68,
  `B` 66; `G` 71, `U` 85, `K` 75, `C` 67, `u` 117, `L` 76. A taken `G`
  binder evaluates the source's `todo!`, a panic even in release.
* `konst` is `Symbol::consume_const` (lines 366-396); `p` is 112,
  `n` is 110, the delimiter `_` is 95.
* the loop bodies mirror lines 464-477 (`gens`), 510-518 (`types`) and
  622-638 (`dyns`/`dynBinds`). -/
def engineStep (prev : Engine) : Engine where
  path := fun s0 =>
    if s0.depth = MAX_DEPTH then .err .tooComplex
    else
      let s := { s0 with depth := s0.depth + 1 }
      match rdConsume s with
      | none => .err .invalid
      | some (c, s) =>
        if c = 67 then
          (try_consume_disambiguator s).bind fun id s =>
          (consume_ident s).bind fun ident s =>
          let ts := take_spot s
          setSpot ts.2 ts.1 (Ty.Path (Path.Crate id ident))
        else if c = 77 ∨ c = 88 ∨ c = 89 then
          let ts := take_spot s
          let spot := ts.1
          let step1 : Outcome Unit :=
            if c ≠ 89 then
              (try_consume_disambiguator ts.2).bind fun _ s =>
              prev.path s
            else Outcome.ok () ts.2
          step1.bind fun _ s =>
          let type_spot := s.ptr
          (prev.ty s).bind fun _ s =>
          if c ≠ 77 then
            let path_spot := s.ptr
            (prev.path s).bind fun _ s =>
            setSpot s spot (Ty.Path (Path.Trait type_spot path_spot))
          else
            setSpot s spot (Ty.Path (Path.InherentImpl type_spot))
        else if c = 78 then
          let nss :=
            match rdConsume s with
            | none => (Namespace.Unknown, s)
            | some (nc, s1) =>
              (if nc = 118 then Namespace.Value
               else if nc = 116 then Namespace.TypeNs
               else if nc = 67 then Namespace.Closure
               else Namespace.Unknown, s1)
          let ts := take_spot nss.2
          let spot := ts.1
          (prev.path ts.2).bind fun _ s =>
          (try_consume_disambiguator s).bind fun id s =>
          (consume_ident s).bind fun ident s =>
          setSpot s spot (Ty.Path (Path.Nested nss.1 (spot + 1) id ident))
        else if c = 73 then
          let ts := take_spot s
          let spot := ts.1
          (prev.path ts.2).bind fun _ s =>
          (prev.gens s []).bind fun generics s =>
          (setSpot s spot (Ty.Path (Path.Generic (spot + 1) generics))).bind
            fun _ s =>
          let t := rdTake s 99
          if t.1 then (consume_ident t.2).bind fun _ s => Outcome.ok () s
          else Outcome.ok () t.2
        else if c = 66 then
          (consume_base62 s).bind fun backref s =>
          let current := s.pos
          if current - 1 ≤ backref then .err .backrefIsFrontref
          else
            (prev.ty { s with pos := backref }).bind fun _ s =>
            Outcome.ok () { s with pos := current }
        else if c = 69 then Outcome.ok () s
        else .err .invalid
  ty := fun s0 =>
    if s0.depth = MAX_DEPTH then .err .tooComplex
    else
      let s := { s0 with depth := s0.depth + 1 }
      match rdConsume s with
      | none => .err .invalid
      | some (c, s) =>
        if c = 65 then
          let ts := take_spot s
          let spot := ts.1
          (prev.ty ts.2).bind fun _ s =>
          (prev.konst s).bind fun cst s =>
          setSpot s spot (Ty.Array (spot + 1) cst)
        else if c = 83 then
          let ts := take_spot s
          let spot := ts.1
          (prev.ty ts.2).bind fun _ s =>
          setSpot s spot (Ty.Slice (spot + 1))
        else if c = 84 then
          let ts := take_spot s
          let spot := ts.1
          (prev.types ts.2 []).bind fun spots s =>
          setSpot s spot (Ty.Tuple spots)
        else if c = 82 then
          let t := rdTake s 76
          (if t.1 then (consume_lifetime t.2).bind fun v s => Outcome.ok (some v) s
           else Outcome.ok none t.2).bind fun lifetime s =>
          let ts := take_spot s
          let spot := ts.1
          (prev.ty ts.2).bind fun _ s =>
          setSpot s spot (Ty.Ref lifetime (spot + 1))
        else if c = 81 then
          let t := rdTake s 76
          (if t.1 then (consume_lifetime t.2).bind fun v s => Outcome.ok (some v) s
           else Outcome.ok none t.2).bind fun lifetime s =>
          let ts := take_spot s
          let spot := ts.1
          (prev.ty ts.2).bind fun _ s =>
          setSpot s spot (Ty.RefMut lifetime (spot + 1))
        else if c = 80 then
          let ts := take_spot s
          let spot := ts.1
          (prev.ty ts.2).bind fun _ s =>
          setSpot s spot (Ty.Pointer (spot + 1))
        else if c = 79 then
          let ts := take_spot s
          let spot := ts.1
          (prev.ty ts.2).bind fun _ s =>
          setSpot s spot (Ty.PointerMut (spot + 1))
        else if c = 70 then
          let tg := rdTake s 71
          if tg.1 then Outcome.panicked
          else
            let tu := rdTake tg.2 85
            let isUns := tu.1
            let tk := rdTake tu.2 75
            (if tk.1 then
              let tc := rdTake tk.2 67
              if tc.1 then (consume_ident tc.2).bind fun i s => Outcome.ok (some i) s
              else Outcome.ok none tc.2
             else Outcome.ok none tk.2).bind fun ident s =>
            let ts := take_spot s
            let spot := ts.1
            (prev.types ts.2 []).bind fun args s =>
            let tr := rdTake s 117
            let returnTy : Option Nat := if tr.1 then none else some tr.2.ptr
            (prev.ty tr.2).bind fun _ s =>
            setSpot s spot (Ty.FnSig none isUns ident args returnTy)
        else if c = 68 then
          let tg := rdTake s 71
          if tg.1 then Outcome.panicked
          else
            let ts := take_spot tg.2
            let spot := ts.1
            (prev.dyns ts.2 []).bind fun dts s =>
            let tl := rdTake s 76
            if tl.1 then
              (consume_lifetime tl.2).bind fun lifetime s =>
              setSpot s spot (Ty.DynTrait none dts lifetime)
            else .err .decodingBase62Num
        else if c = 66 then
          (consume_base62 s).bind fun backref s =>
          let current := s.pos
          if current - 1 ≤ backref then .err .backrefIsFrontref
          else
            (prev.ty { s with pos := backref }).bind fun _ s =>
            Outcome.ok () { s with pos := current }
        else
          match basic_types c with
          | some b =>
            let ts := take_spot s
            setSpot ts.2 ts.1 (Ty.Basic b)
          | none =>
            prev.path (rdOffset s (-1))
  konst := fun s =>
    let tp := rdTake s 112
    if tp.1 then
      let ts := take_spot tp.2
      (setSpot ts.2 ts.1 (Ty.Basic "_")).bind fun _ s =>
      Outcome.ok { neg := false, ty := ts.1, data := (0, 0) } s
    else
      let ty := s.ptr
      (prev.ty s).bind fun _ s =>
      let tn := rdTake s 110
      let s := tn.2
      let start := s.pos
      match (s.buf.drop start).findIdx? (fun c => c == 95) with
      | none => .err .constDelimiterNotFound
      | some k =>
        let e := start + k
        let s := rdOffset s (Int.ofNat (e - start + 1))
        if e = 0 then .err .constDelimiterNotFound
        else Outcome.ok { neg := tn.1, ty := ty, data := (start, e) } s
  types := fun s acc =>
    let t := rdTake s 69
    if t.1 then Outcome.ok acc t.2
    else
      let spot := t.2.ptr
      (prev.ty t.2).bind fun _ s =>
      prev.types s (acc ++ [spot])
  gens := fun s acc =>
    let t := rdTake s 69
    if t.1 then Outcome.ok acc t.2
    else
      match rdConsume t.2 with
      | none =>
        let s := rdOffset t.2 (-1)
        let spot := s.ptr
        (prev.ty s).bind fun _ s =>
        prev.gens s (acc ++ [Generic.TyIdx spot])
      | some (c, s1) =>
        if c = 76 then
          (consume_lifetime s1).bind fun l s =>
          prev.gens s (acc ++ [Generic.Lifetime l])
        else if c = 75 then
          (prev.konst s1).bind fun cst s =>
          prev.gens s (acc ++ [Generic.ConstG cst])
        else
          let s := rdOffset s1 (-1)
          let spot := s.ptr
          (prev.ty s).bind fun _ s =>
          prev.gens s (acc ++ [Generic.TyIdx spot])
  dyns := fun s acc =>
    let t := rdTake s 69
    if t.1 then Outcome.ok acc t.2
    else
      let path_spot := t.2.ptr
      (prev.path t.2).bind fun _ s =>
      (prev.dynBinds s []).bind fun binds s =>
      prev.dyns s (acc ++ [(path_spot, binds)])
  dynBinds := fun s acc =>
    let t := rdTake s 112
    if t.1 then
      (consume_ident t.2).bind fun ident s =>
      let ty_spot := s.ptr
      (prev.ty s).bind fun _ s =>
      prev.dynBinds s (acc ++ [(ident, ty_spot)])
    else Outcome.ok acc t.2

/-- The fuel-indexed engine. -/
def engine : Nat → Engine
  | 0 => engineZero
  | fuel + 1 => engineStep (engine fuel)

/-- `Symbol::consume_path` at a given fuel. -/
def consume_path (fuel : Nat) (s : PState) : Outcome Unit := (engine fuel).path s

/-- `Symbol::consume_type` at a given fuel. -/
def consume_type (fuel : Nat) (s : PState) : Outcome Unit := (engine fuel).ty s

/-- `Symbol::consume_const` at a given fuel. -/
def consume_const (fuel : Nat) (s : PState) : Outcome Const := (engine fuel).konst s

/-- The parsed symbol a successful `Symbol::parse` hands to the caller:
the filled arena plus the cursor (`display` reads both). -/
structure Symbol where
  stack : List Ty
  buf : List Nat
  pos : Nat
  deriving DecidableEq

/-- Result of `Symbol::parse`. -/
inductive ParseResult
  | ok (sym : Symbol)
  | err (e : Error)
  | panicked
  | outOfFuel
  deriving DecidableEq

/-- The arena's initial contents: `MAX_COMPLEXITY` `Empty` placeholders
(`Stack::default`, lines 685-699). -/
def initStack : List Ty := List.replicate MAX_COMPLEXITY Ty.Empty

/-- A fresh parser state over a byte buffer, positioned at `pos`. -/
def mkPState (buf : List Nat) (pos : Nat) : PState :=
  { buf := buf, pos := pos, stack := initStack, ptr := 0, depth := 0 }

/-- Fuel for the entry point. Ample: every `consume_path`/`consume_type`
entry bumps `depth`, which the source caps at `MAX_DEPTH = 100`, and
every loop iteration consumes input or enters a production. -/
def PARSE_FUEL : Nat := 4096

/-- `Symbol::parse` over raw bytes (lines 34-61): strip one of the three
recognised prefixes (`_R`, `R`, `__R`, tried in the source's order),
reject an empty remainder and any byte with the high bit set, then parse
one top-level path production. -/
def parseBytes (bytes : List Nat) : ParseResult :=
  let rest? : Option (List Nat) :=
    if bytes.take 2 = [95, 82] then some (bytes.drop 2)
    else if bytes.take 1 = [82] then some (bytes.drop 1)
    else if bytes.take 3 = [95, 95, 82] then some (bytes.drop 3)
    else none
  match rest? with
  | none => .err .prefixUnknown
  | some rest =>
    if rest = [] then .err .symbolTooSmall
    else if rest.any (fun c => decide (128 ≤ c)) then .err .notAscii
    else
      match consume_path PARSE_FUEL (mkPState rest 0) with
      | .ok _ s => .ok { stack := s.stack, buf := s.buf, pos := s.pos }
      | .err e => .err e
      | .panicked => .panicked
      | .outOfFuel => .outOfFuel

/-- `Symbol::parse` on a string (UTF-8 bytes coincide with code points
for the ASCII inputs evaluated here; any non-ASCII remainder is rejected
either way). -/
def Symbol.parse (s : String) : ParseResult := parseBytes (strBytes s)

/-- Result of the renderer: the accumulated text, a modelled Rust panic
(`unreachable!`, `todo!`, or an out-of-bounds read), or fuel exhaustion
(again an embedding artefact only). -/
inductive FmtOut
  | out (acc : String)
  | panicked
  | fuelOut
  deriving DecidableEq

/-- Sequencing for the renderer. -/
def FmtOut.bind : FmtOut → (String → FmtOut) → FmtOut
  | .out acc, f => f acc
  | .panicked, _ => .panicked
  | .fuelOut, _ => .fuelOut

/-- The 52-entry `CHARS` table of `Lifetime::fmt` (lines 717-733). -/
def lifetimeChars : List Char :=
  "abcdefghijklmnopqrstuvwxyzABCDEFGHIJKLMNOPQRSTUVWXYZ".data

/-- `Lifetime::fmt`: letter for a nonzero id (none past the table),
nothing for zero. -/
def lifetimeFmt (l : Nat) : Option Char :=
  if l ≠ 0 then lifetimeChars.get? (l - 1) else none

/-- Hex value of one byte (what `from_str_radix(_, 16)` accepts per
digit). -/
def hexDigitVal (c : Nat) : Option Nat :=
  if 48 ≤ c ∧ c ≤ 57 then some (c - 48)
  else if 97 ≤ c ∧ c ≤ 102 then some (c - 97 + 10)
  else if 65 ≤ c ∧ c ≤ 70 then some (c - 65 + 10)
  else none

/-- Accumulate hex digits with the overflow check of
`usize::from_str_radix`. -/
def hexVal : List Nat → Nat → Option Nat
  | [], acc => some acc
  | c :: r, acc =>
    match hexDigitVal c with
    | none => none
    | some d =>
      if USIZE_MAX < acc * 16 + d then none else hexVal r (acc * 16 + d)

/-- `usize::from_str_radix(data, 16)`: errors on an empty slice, a
non-hex byte, or overflow. (The std function also tolerates a leading
`+`, which no mangled constant contains.) -/
def fromStrRadix16 (l : List Nat) : Option Nat :=
  if l = [] then none else hexVal l 0

/-- The `num as isize` cast of `fmt_const` (line 288): two's-complement
reinterpretation of a 64-bit unsigned value. -/
def usizeAsIsize (v : Nat) : Int :=
  if v < 2 ^ 63 then Int.ofNat v else Int.ofNat v - 2 ^ 64

/-- Number of decimal digits of `n` (0 for 0). The source derives this
count as `((num as f64 + 1.).log10()).ceil()` (line 880), which equals
the exact digit count for every magnitude evaluated in this development
(the float estimate only drifts beyond 2^53). -/
def numDigitsAux : Nat → Nat → Nat
  | 0, _ => 0
  | fuel + 1, n => if n = 0 then 0 else numDigitsAux fuel (n / 10) + 1

/-- 64 division steps cover every `usize`. -/
def numDigits (n : Nat) : Nat := numDigitsAux 64 n

/-- The digit-emission loop of `fn fmt_num` (lines 881-887):
most-significant first via `10^(len-1)` divide/modulo. -/
def fmtNumLoop : Nat → Nat → String → String
  | 0, _, acc => acc
  | len + 1, n, acc =>
    fmtNumLoop len (n % 10 ^ len) (acc.push (Char.ofNat (n / 10 ^ len + 48)))

/-- `fn fmt_num` (lines 874-888): a leading `-` exactly when the machine
integer is negative, then the decimal digits (none at all for zero,
faithfully to the float length estimate). -/
def fmt_num (acc : String) (num : Int) : String :=
  let acc := if num < 0 then acc ++ "-" else acc
  let n := num.natAbs
  fmtNumLoop (numDigits n) n acc

/-- `Symbol::fmt_const` (lines 277-302). Dispatches on the first byte of
the constant's `Basic` type name: `_` 95 prints `_`; `u` 117 / `i` 105
parse the raw hex text (an unparsable text prints `_`) and print it in
decimal through `fmt_num` — note the parsed `neg` flag of the constant
is never consulted; `c` 99 prints `self.source.inner()[0]`, the byte at
the cursor's CURRENT position, a panic when the cursor sits at the end
of the buffer; every other first byte is the source's `todo!`, and a
non-`Basic` constant type its `unreachable!`. -/
def fmt_const (sym : Symbol) (acc : String) (cst : Const) : FmtOut :=
  match sym.stack.get? cst.ty with
  | none => .panicked
  | some t =>
    match t with
    | Ty.Basic str =>
      match (strBytes str).get? 0 with
      | none => .panicked
      | some b0 =>
        if b0 = 95 then .out (acc ++ "_")
        else if b0 = 117 ∨ b0 = 105 then
          if cst.data.1 ≤ cst.data.2 ∧ cst.data.2 ≤ sym.buf.length then
            let dat := (sym.buf.drop cst.data.1).take (cst.data.2 - cst.data.1)
            match fromStrRadix16 dat with
            | none => .out (acc ++ "_")
            | some v => .out (fmt_num acc (usizeAsIsize v))
          else .panicked
        else if b0 = 99 then
          match (sym.buf.drop sym.pos).get? 0 with
          | none => .panicked
          | some b => .out (acc.push (Char.ofNat b))
        else .panicked
    | _ => .panicked

/-- All mutually recursive pieces of `Symbol::fmt` (lines 69-275) at one
fuel level: `slot` looks an arena index up and formats it; `ty` formats
one node; `gens`, `idxs`, `dyns` and `binds` are the source's indexed
`for` loops with their `", "` separators. -/
structure FmtEngine where
  slot : Symbol → String → Nat → FmtOut
  ty : Symbol → String → Ty → FmtOut
  gens : Symbol → String → List Generic → FmtOut
  idxs : Symbol → String → List Nat → FmtOut
  dyns : Symbol → String → List (Nat × List (String × Nat)) → FmtOut
  binds : Symbol → String → List (String × Nat) → FmtOut

/-- The exhausted renderer. -/
def fmtEngineZero : FmtEngine where
  slot := fun _ _ _ => .fuelOut
  ty := fun _ _ _ => .fuelOut
  gens := fun _ _ _ => .fuelOut
  idxs := fun _ _ _ => .fuelOut
  dyns := fun _ _ _ => .fuelOut
  binds := fun _ _ _ => .fuelOut

/-- One fuel level of `Symbol::fmt`, translated case-for-case from lines
69-275. An `Empty` node is the source's `unreachable!` (line 71). Brace
characters are written as `\x7b`/`\x7d` and the apostrophe as `\x27`. -/
def fmtEngineStep (prev : FmtEngine) : FmtEngine where
  slot := fun sym acc i =>
    match sym.stack.get? i with
    | none => .panicked
    | some t => prev.ty sym acc t
  ty := fun sym acc t =>
    match t with
    | Ty.Empty => .panicked
    | Ty.Basic s => .out (acc ++ s)
    | Ty.Path p =>
      match p with
      | Path.Crate _ ident => .out (acc ++ ident)
      | Path.Nested ns pathIdx dis ident =>
        (prev.slot sym acc pathIdx).bind fun acc =>
        let acc := acc ++ "::"
        if ns = Namespace.Closure then
          let acc := acc ++ "\x7bclosure"
          let acc := if ident ≠ "" then acc ++ ":" ++ ident else acc
          let acc :=
            match dis with
            | some 0 => acc
            | none => acc
            | some num => fmt_num (acc ++ "#") (usizeAsIsize num)
          .out (acc ++ "\x7d")
        else .out (acc ++ ident)
      | Path.Generic pathIdx generics =>
        (prev.slot sym acc pathIdx).bind fun acc =>
        match sym.stack.get? pathIdx with
        | none => .panicked
        | some base =>
          let acc :=
            match base with
            | Ty.Path (Path.Nested Namespace.TypeNs _ _ _) => acc ++ "<"
            | _ => acc ++ "::<"
          (prev.gens sym acc generics).bind fun acc =>
          .out (acc ++ ">")
      | Path.InherentImpl tyIdx =>
        (prev.slot sym (acc ++ "<") tyIdx).bind fun acc => .out (acc ++ ">")
      | Path.Trait tyIdx pathIdx =>
        (prev.slot sym (acc ++ "<") tyIdx).bind fun acc =>
        (prev.slot sym (acc ++ " as ") pathIdx).bind fun acc =>
        .out (acc ++ ">")
    | Ty.Array tyIdx cst =>
      (prev.slot sym (acc ++ "[") tyIdx).bind fun acc =>
      (fmt_const sym (acc ++ "; ") cst).bind fun acc =>
      .out (acc ++ "]")
    | Ty.Slice tyIdx =>
      (prev.slot sym (acc ++ "[") tyIdx).bind fun acc => .out (acc ++ "]")
    | Ty.Tuple tys =>
      (prev.idxs sym (acc ++ "(") tys).bind fun acc => .out (acc ++ ")")
    | Ty.Ref lt tyIdx =>
      let acc :=
        match lt with
        | none => acc ++ "&"
        | some 0 => acc ++ "&"
        | some l =>
          let acc := acc ++ "&\x27"
          let acc :=
            match lifetimeFmt l with
            | some ch => acc.push ch
            | none => acc ++ "_"
          acc ++ " "
      prev.slot sym acc tyIdx
    | Ty.RefMut lt tyIdx =>
      let acc :=
        match lt with
        | none => acc ++ "&mut "
        | some 0 => acc ++ "&mut "
        | some l =>
          let acc := acc ++ "&\x27"
          let acc :=
            match lifetimeFmt l with
            | some ch => acc.push ch
            | none => acc ++ "_"
          acc ++ " mut "
      prev.slot sym acc tyIdx
    | Ty.Pointer tyIdx => prev.slot sym (acc ++ "*const ") tyIdx
    | Ty.PointerMut tyIdx => prev.slot sym (acc ++ "*mut ") tyIdx
    | Ty.FnSig _ isUns ident args ret =>
      let acc := if isUns then acc ++ "unsafe " else acc
      let acc :=
        match ident with
        | some i => acc ++ "fn " ++ i ++ "("
        | none => acc ++ "fn("
      (prev.idxs sym acc args).bind fun acc =>
      let acc := acc ++ ")"
      match ret with
      | some ri => prev.slot sym (acc ++ " -> ") ri
      | none => .out acc
    | Ty.DynTrait _ dts lt =>
      (prev.dyns sym (acc ++ "dyn ") dts).bind fun acc =>
      match lifetimeFmt lt with
      | some ch => .out ((acc ++ " + \x27").push ch)
      | none => .out acc
  gens := fun sym acc l =>
    let one : Symbol → String → Generic → FmtOut := fun sym acc g =>
      match g with
      | Generic.Lifetime lt =>
        let acc := acc ++ "\x27"
        .out
          (match lifetimeFmt lt with
           | some ch => acc.push ch
           | none => acc ++ "_")
      | Generic.TyIdx i => prev.slot sym acc i
      | Generic.ConstG c => fmt_const sym acc c
    match l with
    | [] => .out acc
    | [g] => one sym acc g
    | g :: rest =>
      (one sym acc g).bind fun acc => prev.gens sym (acc ++ ", ") rest
  idxs := fun sym acc l =>
    match l with
    | [] => .out acc
    | [i] => prev.slot sym acc i
    | i :: rest =>
      (prev.slot sym acc i).bind fun acc => prev.idxs sym (acc ++ ", ") rest
  dyns := fun sym acc l =>
    match l with
    | [] => .out acc
    | (ti, bnds) :: rest =>
      (prev.slot sym acc ti).bind fun acc =>
      (if bnds = [] then FmtOut.out acc
       else (prev.binds sym (acc ++ "<") bnds).bind fun acc =>
         FmtOut.out (acc ++ ">")).bind fun acc =>
      prev.dyns sym acc rest
  binds := fun sym acc l =>
    match l with
    | [] => .out acc
    | [(ident, ti)] => prev.slot sym (acc ++ ident ++ " = ") ti
    | (ident, ti) :: rest =>
      (prev.slot sym (acc ++ ident ++ " = ") ti).bind fun acc =>
      prev.binds sym (acc ++ ", ") rest

/-- The fuel-indexed renderer. -/
def fmtEngine : Nat → FmtEngine
  | 0 => fmtEngineZero
  | fuel + 1 => fmtEngineStep (fmtEngine fuel)

/-- Fuel for `display`. Ample: every child index a parsed node stores is
strictly larger than the node's own index, so the depth of the render
recursion is below the arena capacity. -/
def FMT_FUEL : Nat := 512

/-- `Symbol::display` (lines 63-67): render arena slot 0. -/
def Symbol.display (sym : Symbol) : FmtOut :=
  match sym.stack.get? 0 with
  | none => .panicked
  | some t => (fmtEngine FMT_FUEL).ty sym "" t

/-- `parse` followed by `display`: `none` when the parse does not
succeed, otherwise the renderer's outcome. -/
def displayAfterParse (s : String) : Option FmtOut :=
  match Symbol.parse s with
  | .ok sym => some sym.display
  | _ => none

/-- The arena slot `i` of a successful parse of `s` (and `none` when the
parse does not succeed or the index is out of range). -/
def parsedSlot (s : String) (i : Nat) : Option Ty :=
  match Symbol.parse s with
  | .ok sym => sym.stack.get? i
  | _ => none

/-- The spec's words for the base-62 number (section 4.2, generalised
over a starting accumulator): digits 0-9, a-z (+10), A-Z (+36),
"accumulated by multiply-then-add". -/
def b62AccFrom (num : Nat) (l : List Nat) : Nat :=
  l.foldl (fun acc c => acc * 62 + (b62Digit c).getD 0) num

/-- The accumulated multiply-then-add base-62 value of a digit
sequence, exactly as the spec's words describe it. -/
def b62Acc (l : List Nat) : Nat := b62AccFrom 0 l

/-- An input whose valid const-generic arguments exhaust the arena: an
`I` generic instantiation of a crate path with 255 inferred-placeholder
constants. Slots: 0 for `I`, 1 for the crate, then one per `Kp`; the
255th `Kp` asks for slot 256. -/
def c1Input : String := "_RIC1a" ++ String.join (List.replicate 255 "Kp") ++ "E"

/-- The same shape one `Kp` shorter: its last placeholder constant lands
in slot 255, the arena's final slot. -/
def c1InputOk : String := "_RIC1a" ++ String.join (List.replicate 254 "Kp") ++ "E"

/-- The remainder bytes of `"_RXC1aRhB3_"`: a trait-impl path whose
trailing path production is a backreference `B3_` (decoded target 4)
into the middle of the already-parsed type `Rh`. -/
def c5Buf : List Nat := strBytes "XC1aRhB3_"

/-- The parser state right after the backreference number of `c5Buf` has
been decoded (position 9, one production entered). -/
def c5S1 : PState :=
  { buf := c5Buf, pos := 9, stack := initStack, ptr := 0, depth := 1 }

set_option maxRecDepth 200000

/-- Claim C1: the claim says exceeding the 256-slot arena capacity
yields `Err(TooComplex)` and the parser never writes a slot at index
256 or beyond. The code has no capacity check at all: `take_spot` hands
out slot 256 and the write `self.ast.stack[spot]` is an out-of-bounds
index — a Rust panic, modelled as `ParseResult.panicked`. The companion
conjunct shows the input one placeholder shorter parses fine with its
last constant in slot 255, locating the failure exactly at the
capacity boundary the claim is about. -/
theorem c1_arena_overflow_panics :
    Symbol.parse c1Input = ParseResult.panicked ∧
    parsedSlot c1InputOk 255 = some (Ty.Basic "_") := by decide

/-- Claim C2: the claim says parse is total (never panics) and that an
identifier whose declared decimal length exceeds the remaining input is
rejected with an error. On `"_RC9ab"` the crate identifier declares
length 9 with only 2 bytes left; `consume_ident` evaluates
`&s[width..][..len]`, an out-of-range slice — a Rust panic, not an
error return. -/
theorem c2_overlong_ident_panics :
    Symbol.parse "_RC9ab" = ParseResult.panicked := by decide

/-- Claim C3 counterexample: on the digit sequence `1` terminated by
`_` (bytes 49, 95), `consume_base62` returns 2, while the
multiply-then-add accumulated base-62 value of that digit sequence
is 1 — the claim that the accumulated value itself is returned is
false (the terminating underscore adds one, line 323). -/
theorem c3_counterexample :
    consume_base62 (mkPState [49, 95] 0) =
      Outcome.ok 2 { buf := [49, 95], pos := 2, stack := initStack, ptr := 0, depth := 0 } ∧
    b62Acc [49] = 1 := by decide

/-- Lemma for C3: one folding step of the accumulated value. -/
theorem b62AccFrom_cons (num c : Nat) (l : List Nat) :
    b62AccFrom num (c :: l) = b62AccFrom (num * 62 + (b62Digit c).getD 0) l := rfl

/-- Lemma for C3: the accumulator only grows. -/
theorem le_b62AccFrom (num : Nat) (l : List Nat) : num ≤ b62AccFrom num l := by
  induction l generalizing num with
  | nil => simp [b62AccFrom]
  | cons c r ih =>
    rw [b62AccFrom_cons]
    have h1 : num ≤ num * 62 + (b62Digit c).getD 0 := by omega
    exact h1.trans (ih _)

/-- Lemma for C3: on a base-62 digit run followed by the terminating
underscore, the source's loop returns the accumulated value plus one,
having consumed the digits and the underscore, provided the final
value does not overflow `usize` (every intermediate checked operation
is then also in range, because the accumulator is monotone). -/
theorem base62Loop_spec (l rest : List Nat) (num : Nat)
    (hd : ∀ c ∈ l, (b62Digit c).isSome)
    (hbound : b62AccFrom num l + 1 ≤ USIZE_MAX) :
    base62Loop (l ++ 95 :: rest) num = .ok (b62AccFrom num l + 1, l.length + 1) := by
  induction l generalizing num with
  | nil =>
    simp only [b62AccFrom, List.foldl_nil] at hbound
    simp [List.nil_append, base62Loop, checkedAdd, hbound, b62AccFrom]
  | cons c r ih =>
    have hc := hd c (List.mem_cons_self _ _)
    obtain ⟨d, hdig⟩ := Option.isSome_iff_exists.mp hc
    have hc95 : c ≠ 95 := by
      intro h
      rw [h] at hdig
      simp [b62Digit] at hdig
    have hAcc : b62AccFrom num (c :: r) = b62AccFrom (num * 62 + d) r := by
      rw [b62AccFrom_cons, hdig]
      rfl
    have hmono := le_b62AccFrom (num * 62 + d) r
    have h62 : num * 62 ≤ USIZE_MAX := by
      rw [hAcc] at hbound
      omega
    have hadd : num * 62 + d ≤ USIZE_MAX := by
      rw [hAcc] at hbound
      omega
    have hrec := ih (num * 62 + d) (fun x hx => hd x (List.mem_cons_of_mem _ hx))
      (by rw [← hAcc]; exact hbound)
    simp only [List.cons_append, base62Loop, if_neg hc95, hdig, checkedMul, if_pos h62,
      checkedAdd, if_pos hadd, List.append_eq, hrec]
    rw [hAcc]
    simp [List.length_cons]

/-- Claim C3 as amended: for every nonempty sequence of base-62 digits
terminated by an underscore, `consume_base62` returns the
multiply-then-add accumulated value PLUS ONE (when that does not
overflow `usize`), consuming the digits and the terminator; and a lone
leading underscore yields zero. -/
theorem c3_amended (ds rest : List Nat) (st : PState)
    (h1 : ds ≠ [])
    (h2 : ∀ c ∈ ds, (b62Digit c).isSome)
    (h3 : b62Acc ds + 1 ≤ USIZE_MAX)
    (hbuf : st.buf.drop st.pos = ds ++ 95 :: rest) :
    consume_base62 st =
      Outcome.ok (b62Acc ds + 1) { st with pos := st.pos + (ds.length + 1) } ∧
    ∀ (st2 : PState) (rest2 : List Nat), st2.buf.drop st2.pos = 95 :: rest2 →
      consume_base62 st2 = Outcome.ok 0 { st2 with pos := st2.pos + 1 } := by
  constructor
  · obtain ⟨c, ds', rfl⟩ := List.exists_cons_of_ne_nil h1
    have hc := h2 c (List.mem_cons_self _ _)
    obtain ⟨d, hdig⟩ := Option.isSome_iff_exists.mp hc
    have hc95 : c ≠ 95 := by
      intro h
      rw [h] at hdig
      simp [b62Digit] at hdig
    have hget : st.buf.get? st.pos = some c := by
      rw [List.get?_eq_getElem?, ← List.head?_drop, hbuf]
      rfl
    have hne : ¬ st.buf.get? st.pos = some 95 := by
      rw [hget]
      simp [hc95]
    simp only [consume_base62, rdTake, if_neg hne, rdInner, hbuf]
    rw [base62Loop_spec _ _ _ h2 h3]
    simp [b62Acc]
  · intro st2 rest2 hbuf2
    have hget : st2.buf[st2.pos]? = some 95 := by
      rw [← List.head?_drop, hbuf2]
      rfl
    simp [consume_base62, rdTake, hget]

/-- Claim C3 witness: bytes `1_` decode to 2 (accumulated value 1, plus
one), and a lone `_` decodes to 0. -/
theorem c3_amended_witness :
    consume_base62 (mkPState [49, 95] 0) =
      Outcome.ok 2 { buf := [49, 95], pos := 2, stack := initStack, ptr := 0, depth := 0 } ∧
    consume_base62 (mkPState [95] 0) =
      Outcome.ok 0 { buf := [95], pos := 1, stack := initStack, ptr := 0, depth := 0 } := by
  have h := c3_amended [49] [] (mkPState [49, 95] 0) (by decide) (by decide) (by decide)
    (by rfl)
  exact ⟨h.1, h.2 (mkPState [95] 0) [] (by rfl)⟩

/-- Claim C4: in both the path production and the type production, a
backreference tag `B` (byte 66) whose decoded base-62 target is at
least (current position − 1) fails with `BackrefIsFrontref` (source
lines 486-493 and 648-655; `s1` is the state after decoding the
number, so `s1.pos` is the current position at the check). -/
theorem c4_backref_is_frontref (fuel : Nat) (st : PState) (backref : Nat) (s1 : PState)
    (hdepth : st.depth ≠ MAX_DEPTH)
    (hB : st.buf.get? st.pos = some 66)
    (hb62 : consume_base62 { st with depth := st.depth + 1, pos := st.pos + 1 } =
      Outcome.ok backref s1)
    (hge : s1.pos - 1 ≤ backref) :
    consume_path (fuel + 1) st = Outcome.err Error.backrefIsFrontref ∧
    consume_type (fuel + 1) st = Outcome.err Error.backrefIsFrontref := by
  constructor
  · show (engine (fuel + 1)).path st = _
    simp only [engine, engineStep, rdConsume, hB, if_neg hdepth]
    norm_num
    rw [hb62]
    simp only [Outcome.bind]
    rw [if_pos (show s1.pos ≤ backref + 1 by omega)]
  · show (engine (fuel + 1)).ty st = _
    simp only [engine, engineStep, rdConsume, hB, if_neg hdepth]
    norm_num
    rw [hb62]
    simp only [Outcome.bind]
    rw [if_pos (show s1.pos ≤ backref + 1 by omega)]

/-- Claim C4 witness: on bytes `B1_` the decoded target is 2 and the
position after the number is 3, so 2 ≥ 3 − 1 and both productions fail
with `BackrefIsFrontref`. -/
theorem c4_backref_is_frontref_witness :
    consume_path 1 (mkPState [66, 49, 95] 0) = Outcome.err Error.backrefIsFrontref ∧
    consume_type 1 (mkPState [66, 49, 95] 0) = Outcome.err Error.backrefIsFrontref :=
  c4_backref_is_frontref 0 (mkPState [66, 49, 95] 0) 2
    { buf := [66, 49, 95], pos := 3, stack := initStack, ptr := 0, depth := 1 }
    (by decide) (by decide) (by decide) (by decide)

/-- Claim C5 counterexample: the claim says a path-production
backreference parses a full PATH production at the target. On
`"_RXC1aRhB3_"` the backreference target (offset 4) points at the type
`Rh`; the parse succeeds and the slot filled at the target holds the
type node `&u8` — while actually running the path production at that
target position fails with `Invalid` (`R` is no path tag). So the
production re-entered at the target is not the path production. -/
theorem c5_counterexample :
    parsedSlot "_RXC1aRhB3_" 4 = some (Ty.Ref none 5) ∧
    consume_path 100 (mkPState (strBytes "XC1aRhB3_") 4) = Outcome.err Error.invalid := by
  decide

/-- Claim C5 as amended: when the path production reads tag `B` with a
valid strictly-earlier target, it saves the current position, jumps to
the target, parses a TYPE production there (which itself falls back to
path parsing for non-type tags) into new slots, and on success restores
the saved position before the outer production continues. -/
theorem c5_amended (fuel : Nat) (st : PState) (backref : Nat) (s1 : PState)
    (hdepth : st.depth ≠ MAX_DEPTH)
    (hB : st.buf.get? st.pos = some 66)
    (hb62 : consume_base62 { st with depth := st.depth + 1, pos := st.pos + 1 } =
      Outcome.ok backref s1)
    (hlt : backref < s1.pos - 1) :
    consume_path (fuel + 1) st =
      (consume_type fuel { s1 with pos := backref }).bind
        (fun _ s2 => Outcome.ok () { s2 with pos := s1.pos }) := by
  show (engine (fuel + 1)).path st = _
  simp only [engine, engineStep, rdConsume, hB, if_neg hdepth]
  norm_num
  rw [hb62]
  simp only [Outcome.bind, consume_type]
  rw [if_neg (show ¬ s1.pos ≤ backref + 1 by omega)]

/-- Claim C5 witness: the amended behaviour at the backreference of
`c5Buf` (position 6, decoded target 4, current position 9). -/
theorem c5_amended_witness :
    consume_path 51 (mkPState c5Buf 6) =
      (consume_type 50 { c5S1 with pos := 4 }).bind
        (fun _ s2 => Outcome.ok () { s2 with pos := 9 }) := by
  have h := c5_amended 50 (mkPState c5Buf 6) 4 c5S1
    (by decide) (by decide) (by decide) (by decide)
  exact h

/-- Claim C6: the claim says arena slot 0 always holds the parsed root
after a successful parse and is never the Empty placeholder. But
`parse "_RE"` succeeds — the top-level path production hits the
terminator arm `E`, a no-op — leaving the arena untouched: every slot,
including slot 0, is still `Empty` (and `display` would then hit the
source's `unreachable!`). -/
theorem c6_empty_root :
    Symbol.parse "_RE" = ParseResult.ok { stack := initStack, buf := [69], pos := 1 } := by
  decide

/-- Claim C7: the claim says `display` is total on every successful
parse. `"_RIC1aKc63_E"` parses successfully (a char constant `c` with
raw text `63`), but rendering the constant evaluates
`self.source.inner()[0]` with the cursor at the end of the buffer — an
out-of-bounds read of the source buffer, a Rust panic. -/
theorem c7_display_panics :
    displayAfterParse "_RIC1aKc63_E" = some FmtOut.panicked := by decide

/-- Claim C8: the claim says that after the argument-list terminator of
a function signature, a following `u` means no further type production
is consumed. The source records no return type when it takes `u`, but
then calls `consume_type()` unconditionally anyway (lines 603-608). On
`"_RIC1aFEuE"` that extra production swallows the `E` that should close
the generic-argument list, after which the argument loop churns at the
end of the input until the depth ceiling trips: the parse returns
`Err(TooComplex)` where the claimed behaviour would succeed. -/
theorem c8_unit_return_still_consumes :
    Symbol.parse "_RIC1aFEuE" = ParseResult.err Error.tooComplex := by decide

/-- Claim C9: the claim says an integer constant renders with a leading
minus exactly when the negation tag `n` was parsed. On
`"_RIC1aKln5_E"` the constant `-5_i32` is parsed with `neg := true`
(second conjunct), yet it renders as `a::<5>` without the minus:
`fmt_const` never consults the stored flag (lines 284-295), printing a
minus only when the raw hex value is negative as a two's-complement
`isize`. -/
theorem c9_negation_flag_ignored :
    displayAfterParse "_RIC1aKln5_E" = some (FmtOut.out "a::<5>") ∧
    parsedSlot "_RIC1aKln5_E" 0 =
      some (Ty.Path (Path.Generic 1
        [Generic.ConstG { neg := true, ty := 2, data := (7, 8) }])) := by decide

/-- Claim C10: parse-then-display maps `"_RC8demangle"` to
`"demangle"` and `"_RNCNvC8rustdump6decodes0_"` to
`"rustdump::decode::{closure#1}"`. -/
theorem c10_end_to_end :
    displayAfterParse "_RC8demangle" = some (FmtOut.out "demangle") ∧
    displayAfterParse "_RNCNvC8rustdump6decodes0_" =
      some (FmtOut.out "rustdump::decode::\x7bclosure#1\x7d") := by decide

end Demangler
